import Mathlib

/-!
Verification of the news-digest pipeline (`news-recap-and-email.py`).

The script's pure logic is embedded shallowly: the two summarization
providers and the image-hosting network are modelled as oracles (functions
from the call index, respectively the URL, to an abstract outcome), and the
per-article composition loop is translated into Lean functions over those
oracles.  Python string truthiness (`if s:`) is rendered as `s ≠ ""`, and
Python `None` as `Option.none`.
-/

namespace NewsRecap

/-! ### Python string primitives

Small executable models of the Python string operations the script uses:
`str.lower` (ASCII case folding), `str.strip`, the substring operator
`in`, `str.startswith`, and single-character `str.split`. -/

/-- Python `str.lower()` restricted to ASCII, as applied by the script. -/
def pyLower (s : String) : String :=
  ⟨s.data.map Char.toLower⟩

/-- Python `str.strip()`: drop leading and trailing whitespace. -/
def pyStrip (s : String) : String :=
  ⟨((s.data.dropWhile Char.isWhitespace).reverse.dropWhile Char.isWhitespace).reverse⟩

/-- Substring containment on character lists (`needle` occurs in `hay`). -/
def listContains (hay needle : List Char) : Bool :=
  match hay with
  | [] => needle.isEmpty
  | _ :: t => needle.isPrefixOf hay || listContains t needle

/-- Python's `needle in hay` operator on strings. -/
def pyContains (hay needle : String) : Bool :=
  listContains hay.data needle.data

/-- Python `str.startswith(pre)`. -/
def pyStartsWith (s pre : String) : Bool :=
  pre.data.isPrefixOf s.data

/-- Split a character list at every occurrence of the separator. -/
def splitCharList (sep : Char) : List Char → List (List Char)
  | [] => [[]]
  | c :: t =>
    let r := splitCharList sep t
    if c = sep then [] :: r
    else
      match r with
      | [] => [[c]]
      | h :: t2 => (c :: h) :: t2

/-- Python `s.split(sep)` for a single-character separator. -/
def pySplitChar (sep : Char) (s : String) : List String :=
  (splitCharList sep s.data).map (fun l => ⟨l⟩)

/-! ### Summarization engine: primary (Gemini) provider

`get_gemini_perspective` (lines 166-248).  A provider call either raises
(`GemCall.raise`, any transport/provider exception) or returns a response
carrying a text (`""` models Python-falsy text) and an optional
content-policy block reason.  The provider is an oracle from the 0-based
attempt index to the outcome of that call.  The engine's result is the
returned string together with the number of provider calls made and the
list of backoff waits performed, in order. -/

/-- Outcome of one call to the Gemini provider. -/
inductive GemCall where
  | raise : GemCall
  | resp (text : String) (blockReason : Option String) : GemCall

/-- Line 221: `"overloaded" in response.text.lower() or "try again" in
response.text.lower()`. -/
def overloadPhrase (text : String) : Bool :=
  pyContains (pyLower text) "overloaded" || pyContains (pyLower text) "try again"

/-- Fallback returned when all retries are exhausted (line 248). -/
def geminiExhaustedMsg : String :=
  "Summary could not be generated by Gemini after multiple attempts."

/-- Fallback returned on a content-policy block (line 232). -/
def geminiBlockMsg (reason : String) : String :=
  "Summary generation blocked by Gemini safety filters (" ++ reason ++ ")."

/-- The retry loop of `get_gemini_perspective` (lines 211-248).
`attempt` is the 0-based index of the current attempt, `rem + 1` the number
of attempts still allowed, `w` the current backoff wait (`wait_time`).
Returns (result string, number of provider calls, waits performed). -/
def geminiAttempt (provider : Nat → GemCall) : Nat → Nat → Nat → String × Nat × List Nat
  | _, 0, _ => (geminiExhaustedMsg, 0, [])
  | attempt, rem + 1, w =>
    let next : String × Nat × List Nat :=
      if rem > 0 then
        let r := geminiAttempt provider (attempt + 1) rem (w * 2)
        (r.1, r.2.1 + 1, w :: r.2.2)
      else
        let r := geminiAttempt provider (attempt + 1) rem w
        (r.1, r.2.1 + 1, r.2.2)
    match provider attempt with
    | GemCall.raise => next
    | GemCall.resp text block =>
      if text ≠ "" then
        if overloadPhrase text then next else (pyStrip text, 1, [])
      else
        match block with
        | some reason => (geminiBlockMsg reason, 1, [])
        | none => next

/-- `get_gemini_perspective` (lines 166-248): `max_retries = 3`,
initial `wait_time = 2`.  `modelInitialized` models the
`if not gemini_model` guard at line 171. -/
def get_gemini_perspective (modelInitialized : Bool) (provider : Nat → GemCall) :
    String × Nat × List Nat :=
  if modelInitialized then geminiAttempt provider 0 3 2
  else ("Gemini summary could not be generated.", 0, [])

/-- An attempt outcome that makes the loop retry: an exception, overload
text, or a response with neither text nor block reason.  (A block is not a
retrying failure: it returns immediately.) -/
def gemAttemptFails : GemCall → Bool
  | GemCall.raise => true
  | GemCall.resp text block =>
    if text ≠ "" then overloadPhrase text else block.isNone

/-! ### Summarization engine: secondary (OpenAI) provider

`get_openai_perspective` (lines 250-277): a single provider call.  The
response content is `Option String` (`none` models a Python-`None`
message content).  The result is the returned string together with the
number of provider calls made. -/

/-- Outcome of the one call to the OpenAI provider. -/
inductive OaiCall where
  | raise : OaiCall
  | resp (content : Option String) : OaiCall

/-- Fallback returned by the OpenAI path (lines 274 and 277). -/
def openaiFailMsg : String :=
  "Summary could not be generated by OpenAI."

/-- `get_openai_perspective` (lines 250-277).  `clientInitialized` models
the `if not openai_client` guard at line 255. -/
def get_openai_perspective (clientInitialized : Bool) (call : OaiCall) :
    String × Nat :=
  if clientInitialized then
    match call with
    | OaiCall.raise => (openaiFailMsg, 1)
    | OaiCall.resp content =>
      match content with
      | some c => if c ≠ "" then (pyStrip c, 1) else (openaiFailMsg, 1)
      | none => (openaiFailMsg, 1)
  else ("OpenAI summary could not be generated.", 0)

/-- A call outcome on which the OpenAI path falls back to its sentinel. -/
def oaiCallFails : OaiCall → Bool
  | OaiCall.raise => true
  | OaiCall.resp content =>
    match content with
    | some c => c = ""
    | none => true

/-! ### Ordinal date (`get_ordinal_date`, lines 36-49) -/

/-- The suffix logic of `get_ordinal_date` (lines 43-46): the
`10 <= day % 100 <= 20` test, then the `{1:'st', 2:'nd', 3:'rd'}` lookup
on `day % 10` with default `'th'`. -/
def ordinalSuffix (day : Nat) : String :=
  if 10 ≤ day % 100 ∧ day % 100 ≤ 20 then "th"
  else if day % 10 = 1 then "st"
  else if day % 10 = 2 then "nd"
  else if day % 10 = 3 then "rd"
  else "th"

/-- `get_ordinal_date` (line 49): the `strftime` month name and year
rendering are external; the month name is passed in already rendered. -/
def get_ordinal_date (monthName : String) (day year : Nat) : String :=
  monthName ++ " " ++ toString day ++ ordinalSuffix day ++ ", " ++ toString year

/-- The suffix table exactly as the specification enumerates it for days
1..31: "st" for 1, 21, 31; "nd" for 2, 22; "rd" for 3, 23; "th" otherwise
(11, 12, 13 fall in the final "th" case). -/
def ordinalSuffixSpec (day : Nat) : String :=
  if day = 1 ∨ day = 21 ∨ day = 31 then "st"
  else if day = 2 ∨ day = 22 then "nd"
  else if day = 3 ∨ day = 23 then "rd"
  else "th"

/-! ### Article records and the per-article composition loop

`main` (lines 359-455).  An article is a JSON record; a field is `none`
when the key is absent (or holds JSON null, which the script treats the
same way wherever the claims touch it).  The image-hosting network is an
oracle from the URL to a download outcome, and `mimetypes.guess_type`
(an external table) is an oracle from the URL to an optional content
type. -/

/-- One fetched article record (title/author/description/url/urlToImage). -/
structure Article where
  title : Option String
  author : Option String
  description : Option String
  url : Option String
  urlToImage : Option String

/-- Outcome of `requests.get` on an image URL: an exception, or a
response with a status code, an optional `Content-Type` header, and the
body bytes. -/
inductive ImgOutcome where
  | raise : ImgOutcome
  | resp (status : Nat) (contentType : Option String) (content : List Nat) : ImgOutcome

/-- Lines 396-408: determine the image subtype, first from the
`Content-Type` header, then from the URL extension via
`mimetypes.guess_type` (here the already-looked-up result `guessed`).
`""` models Python's `None`/empty subtype (both are falsy at every use). -/
def determineSubtype (ctype : Option String) (guessed : Option String) : String :=
  let fromHeader : String :=
    match ctype with
    | some c =>
      if c ≠ "" && pyStartsWith c "image/" then
        pyStrip ((pySplitChar ';' ((pySplitChar '/' c).getD 1 "")).getD 0 "")
      else ""
    | none => ""
  if fromHeader = "" then
    match guessed with
    | some c =>
      if c ≠ "" && pyStartsWith c "image/" then (pySplitChar '/' c).getD 1 ""
      else ""
    | none => ""
  else fromHeader

/-- Lines 392-424: handle the download outcome for article ordinal `i`.
An exception (`raise`) is caught by the surrounding `try` and yields no
image; a response yields an attachment exactly when the status is 200 and
a non-empty subtype is determined, with the `pjpeg → jpeg` normalization
of line 411-412. -/
def processResponse (guess : String → Option String) (u : String) (i : Nat) :
    ImgOutcome → Option (String × List Nat × String)
  | ImgOutcome.raise => none
  | ImgOutcome.resp status ctype content =>
    if status = 200 then
      let subtype := determineSubtype ctype (guess u)
      if subtype ≠ "" then
        let subtype2 := if pyLower subtype = "pjpeg" then "jpeg" else subtype
        some ("image" ++ toString i, content, subtype2)
      else none
    else none

/-- Lines 386-429: download and type an article's image.  Returns
`some (contentId, bytes, subtype)` exactly when the script both records
an attachment and emits the `<img src="cid:...">` fragment; `none` in
every failure case (missing/sentinel URL, exception, non-200 status, or
no determinable subtype).  `i` is the 1-based article ordinal
(`image_cid = f'image{i}'`, line 389). -/
def processImage (fetch : String → ImgOutcome) (guess : String → Option String) :
    Option String → Nat → Option (String × List Nat × String)
  | none, _ => none
  | some u, i =>
    -- line 387: `if image_url and image_url.lower() not in ['n/a', 'none', '']`
    if u ≠ "" && !(pyLower u == "n/a" || pyLower u == "none" || pyLower u == "") then
      processResponse guess u i (fetch u)
    else none

/-- The data interpolated into one article's HTML block (lines 432-454):
the ordinal, the (defaulted) title and URL, the author fragment when it
is rendered, the `cid:` reference of the inline `<img>` tag when one is
emitted, and the two summaries. -/
structure Fragment where
  ordinal : Nat
  title : String
  url : String
  authorShown : Option String
  imageCid : Option String
  geminiSummary : String
  openaiSummary : String

/-- Lines 363-365: the base summary handed to both summarizers, with the
missing/null/blank fallback. -/
def baseSummaryOf (a : Article) : String :=
  let base := a.description.getD "No summary provided."
  if base = "" || pyStrip base = "" then "No summary provided." else base

/-- One iteration of the article loop (lines 359-455): defaults for the
record fields, the two summarizer calls (`gem`, `oai` are the total
summarization oracles for this article), the image resolution, and the
fragment's interpolated data.  Returns the fragment and the attachment
entry added to `email_attachments`, if any. -/
def composeArticle (fetch : String → ImgOutcome) (guess : String → Option String)
    (gem : String → String → String) (oai : String → String → String)
    (i : Nat) (a : Article) : Fragment × Option (String × List Nat × String) :=
  let title := a.title.getD "No Title Found"
  let url := a.url.getD "#"
  let author := a.author.getD "N/A"
  let base := baseSummaryOf a
  let img := processImage fetch guess a.urlToImage i
  ({ ordinal := i
     title := title
     url := url
     authorShown := if author ≠ "" && pyLower author ≠ "n/a" then some author else none
     imageCid := img.map (fun e => e.1)
     geminiSummary := gem base title
     openaiSummary := oai base title },
   img)

/-- The article loop over the whole batch, starting at ordinal `i`
(`enumerate(articles, 1)` starts at 1).  Returns the fragments in order
and the attachment entries in insertion order. -/
def composeDigestAux (fetch : String → ImgOutcome) (guess : String → Option String)
    (gem : String → String → String) (oai : String → String → String) :
    Nat → List Article → List Fragment × List (String × List Nat × String)
  | _, [] => ([], [])
  | i, a :: rest =>
    let fa := composeArticle fetch guess gem oai i a
    let r := composeDigestAux fetch guess gem oai (i + 1) rest
    (fa.1 :: r.1,
     match fa.2 with
     | some e => e :: r.2
     | none => r.2)

/-- The composed digest of a batch: fragments 1..N plus the attachment
map (as its insertion-ordered entry list). -/
def composeDigest (fetch : String → ImgOutcome) (guess : String → Option String)
    (gem : String → String → String) (oai : String → String → String)
    (articles : List Article) : List Fragment × List (String × List Nat × String) :=
  composeDigestAux fetch guess gem oai 1 articles

/-- The `cid:` references occurring in the composed HTML body, in
document order: one per fragment that carries an inline image. -/
def htmlCidRefs (frags : List Fragment) : List String :=
  frags.filterMap Fragment.imageCid

/-! ### Process exit status (`main`, lines 332-479)

`main` exits 1 when `load_environment()` fails (line 334) and when the
two startup checks are not both successful (line 477); otherwise it runs
the digest (an empty batch and any delivery failure are only logged) and
returns normally, so the process exits 0. -/

/-- The process exit code as a function of the run's outcomes: whether
configuration loading succeeded, whether each startup check succeeded,
whether the fetched batch was nonempty, and whether delivery succeeded. -/
def mainExitCode (envOk geminiOk openaiOk articlesNonempty deliveryOk : Bool) : Nat :=
  if !envOk then 1
  else if geminiOk && openaiOk then
    -- the digest runs; `articlesNonempty` and `deliveryOk` only affect logging
    0
  else 1

/-! ### Injectivity of the decimal rendering used by the content IDs

The content ID of article `i` is the string `"image" ++ toString i`
(line 389).  To show the attachment keys are pairwise distinct we prove
that `Nat.repr` (which `toString` unfolds to) is injective, by exhibiting
a decoding of its digit list. -/

/-- Reference decimal digit list of a natural number (most significant
digit first). -/
def natDigits (n : Nat) : List Char :=
  if h : n < 10 then [Nat.digitChar n]
  else natDigits (n / 10) ++ [Nat.digitChar (n % 10)]
decreasing_by
  exact Nat.div_lt_self (by omega) (by omega)

/-- Value of a decimal digit character. -/
def digitVal (c : Char) : Nat :=
  if c = '0' then 0 else if c = '1' then 1 else if c = '2' then 2 else
  if c = '3' then 3 else if c = '4' then 4 else if c = '5' then 5 else
  if c = '6' then 6 else if c = '7' then 7 else if c = '8' then 8 else
  if c = '9' then 9 else 10

/-- Decode a digit list back to the number it denotes. -/
def decodeDigits (l : List Char) : Nat :=
  l.foldl (fun a c => a * 10 + digitVal c) 0

theorem digitVal_digitChar (d : Nat) (h : d < 10) :
    digitVal (Nat.digitChar d) = d := by
  interval_cases d <;> decide

theorem natDigits_lt (n : Nat) (h : n < 10) : natDigits n = [Nat.digitChar n] := by
  rw [natDigits]
  simp [h]

theorem natDigits_ge (n : Nat) (h : ¬ n < 10) :
    natDigits n = natDigits (n / 10) ++ [Nat.digitChar (n % 10)] := by
  conv_lhs => rw [natDigits]
  simp [h]

theorem foldl_natDigits (n : Nat) : ∀ acc : Nat,
    List.foldl (fun a c => a * 10 + digitVal c) acc (natDigits n) =
      acc * 10 ^ (natDigits n).length + n := by
  induction n using Nat.strong_induction_on with
  | _ n ih =>
    intro acc
    by_cases h : n < 10
    · rw [natDigits_lt n h]
      simp [digitVal_digitChar n h]
    · rw [natDigits_ge n h]
      rw [List.foldl_append]
      have hdiv : n / 10 < n := Nat.div_lt_self (by omega) (by omega)
      rw [ih (n / 10) hdiv acc]
      simp only [List.foldl_cons, List.foldl_nil, List.length_append,
        List.length_singleton]
      rw [digitVal_digitChar (n % 10) (Nat.mod_lt n (by omega))]
      rw [pow_succ, ← mul_assoc]
      have hm : 10 * (n / 10) + n % 10 = n := Nat.div_add_mod n 10
      generalize acc * 10 ^ (natDigits (n / 10)).length = B
      omega

theorem decodeDigits_natDigits (n : Nat) : decodeDigits (natDigits n) = n := by
  have := foldl_natDigits n 0
  simpa [decodeDigits] using this

theorem natDigits_injective : Function.Injective natDigits := by
  intro a b h
  have := decodeDigits_natDigits a
  rw [h, decodeDigits_natDigits] at this
  omega

theorem toDigitsCore_eq_natDigits (fuel : Nat) : ∀ (n : Nat) (ds : List Char),
    n < fuel → Nat.toDigitsCore 10 fuel n ds = natDigits n ++ ds := by
  induction fuel with
  | zero => intro n ds h; omega
  | succ fuel ih =>
    intro n ds h
    rw [Nat.toDigitsCore]
    by_cases hz : n / 10 = 0
    · have h10 : n < 10 := by omega
      simp only [hz, if_pos rfl]
      rw [natDigits_lt n h10, Nat.mod_eq_of_lt h10]
      rfl
    · have h10 : ¬ n < 10 := by omega
      simp only [if_neg hz]
      have hlt : n / 10 < fuel := by
        have : n / 10 < n := Nat.div_lt_self (by omega) (by omega)
        omega
      rw [ih (n / 10) (Nat.digitChar (n % 10) :: ds) hlt]
      rw [natDigits_ge n h10]
      simp

theorem natRepr_eq (n : Nat) : Nat.repr n = (natDigits n).asString := by
  rw [Nat.repr, Nat.toDigits, toDigitsCore_eq_natDigits (n + 1) n [] (by omega)]
  simp

theorem natRepr_injective : Function.Injective Nat.repr := by
  intro a b h
  rw [natRepr_eq, natRepr_eq] at h
  exact natDigits_injective (by simpa [List.asString] using congrArg String.data h)

/-- The content ID allocated for article ordinal `i` (line 389). -/
def cidString (i : Nat) : String := "image" ++ toString i

theorem cidString_injective : Function.Injective cidString := by
  intro a b h
  apply natRepr_injective
  have hd := congrArg String.data h
  simp only [cidString] at hd
  have ha : ∀ s t : String, (s ++ t).data = s.data ++ t.data := by
    intro s t; cases s; cases t; rfl
  rw [ha, ha] at hd
  have hdat : (toString a : String).data = (toString b : String).data :=
    List.append_cancel_left hd
  exact String.ext hdat

/-! ### Stepping lemmas for the Gemini retry loop -/

/-- A failing attempt (exception, overload text, or empty response) makes
the loop retry, counting one call and, unless it was the last attempt,
one wait of the current backoff. -/
theorem geminiAttempt_fail (provider : Nat → GemCall) (attempt rem w : Nat)
    (h : gemAttemptFails (provider attempt) = true) :
    geminiAttempt provider attempt (rem + 1) w =
      if rem > 0 then
        ((geminiAttempt provider (attempt + 1) rem (w * 2)).1,
         (geminiAttempt provider (attempt + 1) rem (w * 2)).2.1 + 1,
         w :: (geminiAttempt provider (attempt + 1) rem (w * 2)).2.2)
      else
        ((geminiAttempt provider (attempt + 1) rem w).1,
         (geminiAttempt provider (attempt + 1) rem w).2.1 + 1,
         (geminiAttempt provider (attempt + 1) rem w).2.2) := by
  cases hp : provider attempt with
  | raise => simp [geminiAttempt, hp]
  | resp text block =>
    rw [hp] at h
    rw [show gemAttemptFails (GemCall.resp text block)
          = if text ≠ "" then overloadPhrase text else block.isNone from rfl] at h
    by_cases ht : text = ""
    · subst ht
      simp only [ne_eq, not_true_eq_false, if_false] at h
      have hb : block = none := Option.isNone_iff_eq_none.mp h
      subst hb
      simp [geminiAttempt, hp]
    · rw [if_pos ht] at h
      simp [geminiAttempt, hp, ht, h]

/-- A successful attempt (non-empty text without overload phrase) returns
the stripped text immediately, counting one call and no wait. -/
theorem geminiAttempt_success (provider : Nat → GemCall) (attempt rem w : Nat)
    (text : String) (block : Option String)
    (hp : provider attempt = GemCall.resp text block)
    (ht : text ≠ "") (ho : overloadPhrase text = false) :
    geminiAttempt provider attempt (rem + 1) w = (pyStrip text, 1, []) := by
  simp [geminiAttempt, hp, ht, ho]

/-- A blocked attempt (no text, block reason present) returns the
block-naming fallback immediately, counting one call and no wait. -/
theorem geminiAttempt_block (provider : Nat → GemCall) (attempt rem w : Nat)
    (reason : String)
    (hp : provider attempt = GemCall.resp "" (some reason)) :
    geminiAttempt provider attempt (rem + 1) w = (geminiBlockMsg reason, 1, []) := by
  simp [geminiAttempt, hp]

/-- A provider that reports overload text on its first two calls and
clean text on the third. -/
def overloadTwiceProvider : Nat → GemCall := fun k =>
  if k < 2 then GemCall.resp "Model overloaded, try again" none
  else GemCall.resp "All good." none

/-! ### Claim theorems -/

/-- C1: if the Gemini provider returns overload text (case-insensitive
"overloaded" or "try again") on the first two attempts and usable text on
the third, the engine makes exactly 3 provider calls, waits 2 then 4 time
units (no wait after the final attempt), and returns the third attempt's
(stripped) text. -/
theorem gemini_overload_retries_then_succeeds (provider : Nat → GemCall)
    (t0 t1 t2 : String) (b0 b1 b2 : Option String)
    (h0 : provider 0 = GemCall.resp t0 b0) (h0t : t0 ≠ "")
    (h0o : overloadPhrase t0 = true)
    (h1 : provider 1 = GemCall.resp t1 b1) (h1t : t1 ≠ "")
    (h1o : overloadPhrase t1 = true)
    (h2 : provider 2 = GemCall.resp t2 b2) (h2t : t2 ≠ "")
    (h2o : overloadPhrase t2 = false) :
    get_gemini_perspective true provider = (pyStrip t2, 3, [2, 4]) := by
  have hf0 : gemAttemptFails (provider 0) = true := by
    rw [h0]; simp [gemAttemptFails, h0t, h0o]
  have hf1 : gemAttemptFails (provider 1) = true := by
    rw [h1]; simp [gemAttemptFails, h1t, h1o]
  simp only [get_gemini_perspective, if_true]
  rw [show (3 : Nat) = 2 + 1 from rfl, geminiAttempt_fail provider 0 2 2 hf0]
  norm_num
  rw [show (2 : Nat) = 1 + 1 from rfl, geminiAttempt_fail provider 1 1 4 hf1]
  norm_num
  rw [show (1 : Nat) = 0 + 1 from rfl,
    geminiAttempt_success provider 2 0 8 t2 b2 h2 h2t h2o]
  simp

/-- Witness for C1 at the spec's own stub: two "Model overloaded, try
again" responses, then "All good." -/
theorem gemini_overload_retries_then_succeeds_witness :
    overloadPhrase "Model overloaded, try again" = true ∧
    overloadPhrase "All good." = false ∧
    get_gemini_perspective true overloadTwiceProvider = ("All good.", 3, [2, 4]) := by
  refine ⟨by decide, by decide, ?_⟩
  rw [gemini_overload_retries_then_succeeds overloadTwiceProvider
    "Model overloaded, try again" "Model overloaded, try again" "All good."
    none none none rfl (by decide) (by decide) rfl (by decide) (by decide)
    rfl (by decide) (by decide)]
  decide

/-- C2: a content-policy block (no text, block reason set) on attempt `j`
(after failing attempts before it) stops the engine immediately: exactly
`j + 1` provider calls, only the backoffs before attempt `j`, and the
block-naming fallback as result; a block on the first call means exactly
1 call. -/
theorem gemini_block_stops_immediately (provider : Nat → GemCall) (j : Nat)
    (reason : String) (hj : j < 3)
    (hfail : ∀ k, k < j → gemAttemptFails (provider k) = true)
    (hblock : provider j = GemCall.resp "" (some reason)) :
    get_gemini_perspective true provider =
      (geminiBlockMsg reason, j + 1, List.take j [2, 4]) := by
  simp only [get_gemini_perspective, if_true]
  interval_cases j
  · rw [show (3 : Nat) = 2 + 1 from rfl,
      geminiAttempt_block provider 0 2 2 reason hblock]
    simp
  · have hf0 := hfail 0 (by omega)
    rw [show (3 : Nat) = 2 + 1 from rfl, geminiAttempt_fail provider 0 2 2 hf0]
    norm_num
    rw [show (2 : Nat) = 1 + 1 from rfl,
      geminiAttempt_block provider 1 1 4 reason hblock]
    simp
  · have hf0 := hfail 0 (by omega)
    have hf1 := hfail 1 (by omega)
    rw [show (3 : Nat) = 2 + 1 from rfl, geminiAttempt_fail provider 0 2 2 hf0]
    norm_num
    rw [show (2 : Nat) = 1 + 1 from rfl, geminiAttempt_fail provider 1 1 4 hf1]
    norm_num
    rw [show (1 : Nat) = 0 + 1 from rfl,
      geminiAttempt_block provider 2 0 8 reason hblock]
    simp

/-- Witness for C2 at the spec's own stub: a block on the first call
yields the block-describing fallback after exactly 1 call. -/
theorem gemini_block_stops_immediately_witness :
    (0 : Nat) < 3 ∧
    get_gemini_perspective true (fun _ => GemCall.resp "" (some "SAFETY")) =
      ("Summary generation blocked by Gemini safety filters (SAFETY).", 1, []) := by
  refine ⟨by decide, ?_⟩
  rw [gemini_block_stops_immediately (fun _ => GemCall.resp "" (some "SAFETY"))
    0 "SAFETY" (by decide) (by intro k hk; omega) rfl]
  decide

/-- C3: on days 1..31 the ordinal suffix of `get_ordinal_date` agrees
with the specification's table ("st" for 1, 21, 31; "nd" for 2, 22; "rd"
for 3, 23; "th" for everything else, including 11, 12, 13). -/
theorem ordinalSuffix_matches_spec (d : Nat) (h1 : 1 ≤ d) (h2 : d ≤ 31) :
    ordinalSuffix d = ordinalSuffixSpec d := by
  interval_cases d <;> decide

/-- Witness for C3 at day 23. -/
theorem ordinalSuffix_matches_spec_witness :
    (1 ≤ 23 ∧ 23 ≤ 31) ∧ ordinalSuffix 23 = ordinalSuffixSpec 23 :=
  ⟨⟨by decide, by decide⟩, ordinalSuffix_matches_spec 23 (by decide) (by decide)⟩

/-- C4 counterexample: when every Gemini provider call raises, the
primary field is "Summary could not be generated by Gemini after multiple
attempts.", not the claimed "Summary could not be generated by
Gemini.". -/
theorem gemini_sentinel_differs_from_claim :
    get_gemini_perspective true (fun _ => GemCall.raise) =
      ("Summary could not be generated by Gemini after multiple attempts.", 3, [2, 4]) ∧
    geminiExhaustedMsg ≠ "Summary could not be generated by Gemini." := by
  constructor
  · decide
  · decide

/-- C4 (amended): a SummaryPair is always produced; a field that cannot
be generated is the provider's fixed sentinel, which is "Summary could
not be generated by OpenAI." for the secondary field and "Summary could
not be generated by Gemini after multiple attempts." for the primary
field when its attempts are exhausted. -/
theorem summary_fallback_sentinels (provider : Nat → GemCall) (call : OaiCall)
    (h0 : gemAttemptFails (provider 0) = true)
    (h1 : gemAttemptFails (provider 1) = true)
    (h2 : gemAttemptFails (provider 2) = true)
    (hc : oaiCallFails call = true) :
    get_gemini_perspective true provider = (geminiExhaustedMsg, 3, [2, 4]) ∧
    get_openai_perspective true call = (openaiFailMsg, 1) := by
  constructor
  · simp only [get_gemini_perspective, if_true]
    rw [show (3 : Nat) = 2 + 1 from rfl, geminiAttempt_fail provider 0 2 2 h0]
    norm_num
    rw [show (2 : Nat) = 1 + 1 from rfl, geminiAttempt_fail provider 1 1 4 h1]
    norm_num
    rw [show (1 : Nat) = 0 + 1 from rfl, geminiAttempt_fail provider 2 0 8 h2]
    simp [geminiAttempt]
  · cases call with
    | raise => rfl
    | resp content =>
      cases content with
      | none => rfl
      | some c =>
        have hc2 : c = "" := by simpa [oaiCallFails] using hc
        subst hc2
        simp [get_openai_perspective]

/-- Witness for C4 (amended): both providers raising on every call. -/
theorem summary_fallback_sentinels_witness :
    gemAttemptFails ((fun _ => GemCall.raise) 0) = true ∧
    oaiCallFails OaiCall.raise = true ∧
    (get_gemini_perspective true (fun _ => GemCall.raise) = (geminiExhaustedMsg, 3, [2, 4]) ∧
     get_openai_perspective true OaiCall.raise = (openaiFailMsg, 1)) :=
  ⟨by decide, by decide,
   summary_fallback_sentinels (fun _ => GemCall.raise) OaiCall.raise
     (by decide) (by decide) (by decide) (by decide)⟩

/-- C5 counterexample: with configuration present, the Gemini startup
check failing and the OpenAI startup check succeeding, the process exits
1, although the claimed condition (configuration missing, or both checks
failing) does not hold there. -/
theorem mainExitCode_not_both_failed :
    mainExitCode true false true true true ≠ 0 ∧
    ¬ ((true : Bool) = false ∨ ((false : Bool) = false ∧ (true : Bool) = false)) := by
  decide

/-- C5 (amended): the process exits nonzero exactly when configuration is
missing or at least one summarization backend fails its startup check; an
empty fetched batch or a delivery failure still exits zero. -/
theorem mainExitCode_spec :
    ∀ envOk geminiOk openaiOk articlesNonempty deliveryOk : Bool,
      mainExitCode envOk geminiOk openaiOk articlesNonempty deliveryOk ≠ 0 ↔
        (envOk = false ∨ geminiOk = false ∨ openaiOk = false) := by
  decide

/-! ### Structural lemmas about the composition loop -/

theorem composeArticle_imageCid (fetch : String → ImgOutcome)
    (guess : String → Option String) (gem oai : String → String → String)
    (i : Nat) (a : Article) :
    (composeArticle fetch guess gem oai i a).1.imageCid =
      (composeArticle fetch guess gem oai i a).2.map (fun e => e.1) := rfl

theorem composeArticle_snd (fetch : String → ImgOutcome)
    (guess : String → Option String) (gem oai : String → String → String)
    (i : Nat) (a : Article) :
    (composeArticle fetch guess gem oai i a).2 =
      processImage fetch guess a.urlToImage i := rfl

theorem composeArticle_ordinal (fetch : String → ImgOutcome)
    (guess : String → Option String) (gem oai : String → String → String)
    (i : Nat) (a : Article) :
    (composeArticle fetch guess gem oai i a).1.ordinal = i := rfl

/-- Whenever `processImage` resolves an image, its content ID is the
ordinal-determined `cidString i`. -/
theorem processImage_key (fetch : String → ImgOutcome)
    (guess : String → Option String) (imageUrl : Option String) (i : Nat)
    (e : String × List Nat × String)
    (h : processImage fetch guess imageUrl i = some e) : e.1 = cidString i := by
  cases imageUrl with
  | none => simp [processImage] at h
  | some u =>
    simp only [processImage] at h
    by_cases hc :
        (u ≠ "" && !(pyLower u == "n/a" || pyLower u == "none" || pyLower u == "")) = true
    · rw [if_pos hc] at h
      cases hf : fetch u with
      | raise => rw [hf] at h; simp [processResponse] at h
      | resp status ctype content =>
        rw [hf] at h
        simp only [processResponse] at h
        by_cases hs : status = 200
        · rw [if_pos hs] at h
          by_cases hsub : determineSubtype ctype (guess u) ≠ ""
          · rw [if_pos hsub] at h
            have := (Option.some_inj.mp h).symm
            rw [this]
            rfl
          · rw [if_neg hsub] at h; simp at h
        · rw [if_neg hs] at h; simp at h
    · rw [if_neg hc] at h; simp at h

theorem composeDigestAux_ordinals (fetch : String → ImgOutcome)
    (guess : String → Option String) (gem oai : String → String → String) :
    ∀ (arts : List Article) (i : Nat),
      (composeDigestAux fetch guess gem oai i arts).1.map Fragment.ordinal =
        List.range' i arts.length := by
  intro arts
  induction arts with
  | nil => intro i; simp [composeDigestAux]
  | cons a rest ih =>
    intro i
    simp only [composeDigestAux, List.map_cons, List.length_cons, List.range'_succ]
    rw [composeArticle_ordinal, ih (i + 1)]

theorem composeDigestAux_keys (fetch : String → ImgOutcome)
    (guess : String → Option String) (gem oai : String → String → String) :
    ∀ (arts : List Article) (i : Nat),
      (composeDigestAux fetch guess gem oai i arts).2.map (fun e => e.1) =
        htmlCidRefs (composeDigestAux fetch guess gem oai i arts).1 := by
  intro arts
  induction arts with
  | nil => intro i; simp [composeDigestAux, htmlCidRefs]
  | cons a rest ih =>
    intro i
    simp only [composeDigestAux, htmlCidRefs, List.filterMap_cons]
    rw [composeArticle_imageCid fetch guess gem oai i a]
    cases h : (composeArticle fetch guess gem oai i a).2 with
    | none =>
      simp only [Option.map_none]
      exact ih (i + 1)
    | some e =>
      simp only [Option.map_some, List.map_cons]
      rw [ih (i + 1)]
      rfl

theorem composeDigestAux_keys_sublist (fetch : String → ImgOutcome)
    (guess : String → Option String) (gem oai : String → String → String) :
    ∀ (arts : List Article) (i : Nat),
      ((composeDigestAux fetch guess gem oai i arts).2.map (fun e => e.1)).Sublist
        ((List.range' i arts.length).map cidString) := by
  intro arts
  induction arts with
  | nil => intro i; simp [composeDigestAux]
  | cons a rest ih =>
    intro i
    simp only [composeDigestAux, List.length_cons, List.range'_succ, List.map_cons]
    cases h : (composeArticle fetch guess gem oai i a).2 with
    | none => exact List.Sublist.cons _ (ih (i + 1))
    | some e =>
      have he : e.1 = cidString i := by
        apply processImage_key fetch guess a.urlToImage i e
        rw [← composeArticle_snd fetch guess gem oai i a]
        exact h
      simp only [List.map_cons, he]
      exact List.Sublist.cons₂ _ (ih (i + 1))

/-- C6: in every composed digest the attachment keys and the `cid:`
references of the HTML body correspond 1:1 — the insertion-ordered key
list equals the document-ordered reference list, and the keys are
pairwise distinct (so each key has exactly one reference and each
reference one key). -/
theorem digest_inline_images_one_to_one (fetch : String → ImgOutcome)
    (guess : String → Option String) (gem oai : String → String → String)
    (arts : List Article) :
    (composeDigest fetch guess gem oai arts).2.map (fun e => e.1) =
      htmlCidRefs (composeDigest fetch guess gem oai arts).1 ∧
    ((composeDigest fetch guess gem oai arts).2.map (fun e => e.1)).Nodup := by
  constructor
  · exact composeDigestAux_keys fetch guess gem oai arts 1
  · exact List.Nodup.sublist (composeDigestAux_keys_sublist fetch guess gem oai arts 1)
      (List.Nodup.map cidString_injective (List.nodup_range' 1 arts.length))

/-- C7: a batch of N articles composes to exactly N fragments, numbered
1..N in fetch order, whatever the summarization and image oracles do —
no article is dropped by a summarization or image failure. -/
theorem digest_fragments_numbered (fetch : String → ImgOutcome)
    (guess : String → Option String) (gem oai : String → String → String)
    (arts : List Article) :
    (composeDigest fetch guess gem oai arts).1.length = arts.length ∧
    (composeDigest fetch guess gem oai arts).1.map Fragment.ordinal =
      List.range' 1 arts.length := by
  have h := composeDigestAux_ordinals fetch guess gem oai arts 1
  refine ⟨?_, h⟩
  have := congrArg List.length h
  simpa using this

/-- The claim's failure conditions for image resolution: no URL, an empty
or sentinel URL, a network exception, a non-200 status, or no
determinable image subtype. -/
def imageResolutionFails (fetch : String → ImgOutcome)
    (guess : String → Option String) (imageUrl : Option String) : Bool :=
  match imageUrl with
  | none => true
  | some u =>
    u == "" || pyLower u == "n/a" || pyLower u == "none" ||
    (match fetch u with
     | ImgOutcome.raise => true
     | ImgOutcome.resp status ctype _ =>
       !(status == 200) || determineSubtype ctype (guess u) == "")

/-- C8: under any of the image-failure conditions, image resolution
returns none, the article's fragment carries no `<img>` reference, and no
attachment entry is contributed; composition still succeeds (it is a
total function of the article). -/
theorem image_failure_yields_no_image (fetch : String → ImgOutcome)
    (guess : String → Option String) (gem oai : String → String → String)
    (i : Nat) (a : Article)
    (h : imageResolutionFails fetch guess a.urlToImage = true) :
    processImage fetch guess a.urlToImage i = none ∧
    (composeArticle fetch guess gem oai i a).1.imageCid = none ∧
    (composeArticle fetch guess gem oai i a).2 = none := by
  have hp : processImage fetch guess a.urlToImage i = none := by
    cases hu : a.urlToImage with
    | none => simp [processImage]
    | some u =>
      rw [hu] at h
      simp only [imageResolutionFails, Bool.or_eq_true, beq_iff_eq] at h
      simp only [processImage]
      by_cases hc :
          (u ≠ "" && !(pyLower u == "n/a" || pyLower u == "none" || pyLower u == "")) = true
      · rw [if_pos hc]
        simp only [Bool.and_eq_true, Bool.not_eq_true', Bool.or_eq_false_iff,
          beq_eq_false_iff_ne, ne_eq, decide_eq_true_eq] at hc
        obtain ⟨hc1, hc2⟩ := hc
        rcases h with ((hu0 | hna) | hno) | hrest
        · exact absurd hu0 hc1
        · exact absurd hna hc2.1.1
        · exact absurd hno hc2.1.2
        · cases hf : fetch u with
          | raise => rfl
          | resp status ctype content =>
            rw [hf] at hrest
            simp only [Bool.or_eq_true, Bool.not_eq_true', beq_eq_false_iff_ne,
              ne_eq, beq_iff_eq] at hrest
            simp only [processResponse]
            rcases hrest with hst | hsub
            · rw [if_neg (by simpa using hst)]
            · by_cases hs : status = 200
              · rw [if_pos hs]
                simp [hsub]
              · rw [if_neg hs]
      · rw [if_neg hc]
  refine ⟨hp, ?_, ?_⟩
  · rw [composeArticle_imageCid, composeArticle_snd, hp]; rfl
  · rw [composeArticle_snd]; exact hp

/-- Witness for C8: an article whose image URL is the sentinel "n/a". -/
theorem image_failure_yields_no_image_witness :
    imageResolutionFails (fun _ => ImgOutcome.raise) (fun _ => none) (some "n/a") = true ∧
    (processImage (fun _ => ImgOutcome.raise) (fun _ => none) (some "n/a") 1 = none ∧
     (composeArticle (fun _ => ImgOutcome.raise) (fun _ => none)
        (fun _ _ => "g") (fun _ _ => "o") 1
        { title := some "t", author := none, description := none,
          url := none, urlToImage := some "n/a" }).1.imageCid = none ∧
     (composeArticle (fun _ => ImgOutcome.raise) (fun _ => none)
        (fun _ _ => "g") (fun _ _ => "o") 1
        { title := some "t", author := none, description := none,
          url := none, urlToImage := some "n/a" }).2 = none) :=
  ⟨by decide,
   image_failure_yields_no_image (fun _ => ImgOutcome.raise) (fun _ => none)
     (fun _ _ => "g") (fun _ _ => "o") 1
     { title := some "t", author := none, description := none,
       url := none, urlToImage := some "n/a" } (by decide)⟩

/-- C9: when an image resolves, its stored subtype is the determined
subtype, normalized only in the single case that its lower-casing is
"pjpeg" (then "jpeg"); every other determined subtype is stored
unchanged. -/
theorem pjpeg_normalized_to_jpeg (fetch : String → ImgOutcome)
    (guess : String → Option String) (i : Nat) (u : String)
    (ctype : Option String) (content : List Nat) (s : String)
    (hu : (u ≠ "" && !(pyLower u == "n/a" || pyLower u == "none" || pyLower u == "")) = true)
    (hf : fetch u = ImgOutcome.resp 200 ctype content)
    (hs : determineSubtype ctype (guess u) = s) (hne : s ≠ "") :
    processImage fetch guess (some u) i =
      some (cidString i, content, if pyLower s = "pjpeg" then "jpeg" else s) := by
  simp only [processImage]
  rw [if_pos hu, hf]
  simp only [processResponse]
  rw [if_pos trivial]
  simp only [hs]
  rw [if_pos hne]
  rfl

/-- Witness for C9: a header of "image/pjpeg" stores subtype "jpeg". -/
theorem pjpeg_normalized_to_jpeg_witness :
    (("http://x/p" ≠ "" &&
      !(pyLower "http://x/p" == "n/a" || pyLower "http://x/p" == "none" ||
        pyLower "http://x/p" == "")) = true ∧
     determineSubtype (some "image/pjpeg") none = "pjpeg" ∧ "pjpeg" ≠ "") ∧
    processImage (fun _ => ImgOutcome.resp 200 (some "image/pjpeg") [7])
      (fun _ => none) (some "http://x/p") 1 = some ("image1", [7], "jpeg") := by
  refine ⟨⟨by decide, by decide, by decide⟩, ?_⟩
  rw [pjpeg_normalized_to_jpeg (fun _ => ImgOutcome.resp 200 (some "image/pjpeg") [7])
    (fun _ => none) 1 "http://x/p" (some "image/pjpeg") [7] "pjpeg"
    (by decide) rfl (by decide) (by decide)]
  decide

/-- C10: composition is total over records with missing fields — a
missing title renders as "No Title Found", a missing url as "#", and a
missing (or whitespace-only) description is replaced by "No summary
provided." before being handed to either summarizer. -/
theorem missing_fields_defaulted (fetch : String → ImgOutcome)
    (guess : String → Option String) (gem oai : String → String → String)
    (i : Nat) (a : Article) :
    (a.title = none → (composeArticle fetch guess gem oai i a).1.title = "No Title Found") ∧
    (a.url = none → (composeArticle fetch guess gem oai i a).1.url = "#") ∧
    ((a.description = none ∨ ∃ s, a.description = some s ∧ pyStrip s = "") →
      (composeArticle fetch guess gem oai i a).1.geminiSummary =
        gem "No summary provided." (composeArticle fetch guess gem oai i a).1.title ∧
      (composeArticle fetch guess gem oai i a).1.openaiSummary =
        oai "No summary provided." (composeArticle fetch guess gem oai i a).1.title) := by
  refine ⟨fun ht => ?_, fun hu => ?_, fun hd => ?_⟩
  · simp [composeArticle, ht]
  · simp [composeArticle, hu]
  · have hb : baseSummaryOf a = "No summary provided." := by
      rcases hd with hd | ⟨s, hd, hs⟩
      · simp [baseSummaryOf, hd]
      · simp [baseSummaryOf, hd, hs]
    constructor
    · show gem (baseSummaryOf a) _ = _
      rw [hb]
      rfl
    · show oai (baseSummaryOf a) _ = _
      rw [hb]
      rfl

/-- Witness for C10: the wholly empty article record. -/
theorem missing_fields_defaulted_witness :
    (composeArticle (fun _ => ImgOutcome.raise) (fun _ => none)
      (fun b t => b ++ t) (fun b t => t ++ b) 1
      { title := none, author := none, description := none,
        url := none, urlToImage := none }).1.title = "No Title Found" ∧
    (composeArticle (fun _ => ImgOutcome.raise) (fun _ => none)
      (fun b t => b ++ t) (fun b t => t ++ b) 1
      { title := none, author := none, description := none,
        url := none, urlToImage := none }).1.url = "#" ∧
    (composeArticle (fun _ => ImgOutcome.raise) (fun _ => none)
      (fun b t => b ++ t) (fun b t => t ++ b) 1
      { title := none, author := none, description := none,
        url := none, urlToImage := none }).1.geminiSummary =
      "No summary provided." ++ "No Title Found" :=
  ⟨(missing_fields_defaulted (fun _ => ImgOutcome.raise) (fun _ => none)
      (fun b t => b ++ t) (fun b t => t ++ b) 1
      { title := none, author := none, description := none,
        url := none, urlToImage := none }).1 rfl,
   (missing_fields_defaulted (fun _ => ImgOutcome.raise) (fun _ => none)
      (fun b t => b ++ t) (fun b t => t ++ b) 1
      { title := none, author := none, description := none,
        url := none, urlToImage := none }).2.1 rfl,
   by
     have h := ((missing_fields_defaulted (fun _ => ImgOutcome.raise) (fun _ => none)
       (fun b t => b ++ t) (fun b t => t ++ b) 1
       { title := none, author := none, description := none,
         url := none, urlToImage := none }).2.2 (Or.inl rfl)).1
     rw [h]
     decide⟩

end NewsRecap
